import Mathlib

/-!
Shallow embedding of the publish-subscribe agent protocol
(`src/communication_protocol/agent_protocol.py`) and proofs of its
specified properties.

Modelling choices:
* A `Message` is the pydantic model: required fields `sender`, `topic`,
  `payload`; optional fields with defaults (`message_id` via uuid factory,
  `timestamp` via the clock, `priority` defaulting to `0.5` and constrained
  to `[0, 1]`).  Python floats used only for comparison/defaulting are
  modelled as rationals.
* Handler references are opaque identifiers (`Nat`); a handler's behaviour
  on a message (returning normally or raising an `Exception`) is a
  parameter `Behavior`.
* The subscriber registry `Dict[str, List[handler]]` (a `defaultdict(list)`
  read with `.get(topic, [])`) is modelled as a total function
  `String → List Handler`, empty by default, which matches both the
  defaultdict write path and the `.get` read path.
* Dispatch and the run loop are modelled as trace-producing functions:
  each handler call becomes an `Event.invoked` carrying the message and
  the handler's outcome (a raised error is caught and recorded, mirroring
  the `try/except Exception: logging.exception` around the call), and the
  no-subscriber warning becomes `Event.noSubscribers` with the topic and
  message id that the source logs.
* The whole bus (registry + intake queue) is additionally given as a
  small-step transition system `Step` with ghost fields recording the
  publish and dispatch histories, to state the FIFO and frame invariants.
* The lifecycle flags (`_is_running`, `_runner_task`) are modelled by
  `Lifecycle` with the exact guard of `AgentProtocol.run` and the field
  updates of `AgentProtocol.stop`; task creation is counted in a ghost
  field.
-/

/-- The pydantic `Message` model.  `payload` is `Dict[str, Any]`; payload
values are opaque to the bus, modelled as strings. -/
structure Message where
  sender : String
  topic : String
  payload : List (String × String)
  message_id : String
  conversation_id : Option String
  in_reply_to : Option String
  timestamp : ℚ
  priority : ℚ
  token_count : Option Int
  summary : Option String
deriving DecidableEq, Repr

/-- Keyword arguments offered to the `Message` constructor: every pydantic
field may be present or absent in the input dict. -/
structure MessageInput where
  sender : Option String := none
  topic : Option String := none
  payload : Option (List (String × String)) := none
  message_id : Option String := none
  conversation_id : Option String := none
  in_reply_to : Option String := none
  timestamp : Option ℚ := none
  priority : Option ℚ := none
  token_count : Option Int := none
  summary : Option String := none
deriving DecidableEq, Repr

/-- Pydantic validation at construction time: `sender`, `topic` and
`payload` have no default so they are required; `message_id` defaults to a
fresh uuid (`freshId`), `timestamp` to the current clock (`now`),
`priority` to `0.5` and must satisfy `ge=0.0, le=1.0`.  Returns `none`
when validation raises. -/
def mkMessage (freshId : String) (now : ℚ) (inp : MessageInput) : Option Message :=
  match inp.sender, inp.topic, inp.payload with
  | some s, some t, some pl =>
      let pr : ℚ := inp.priority.getD (mkRat 1 2)
      if 0 ≤ pr ∧ pr ≤ 1 then
        some { sender := s
               topic := t
               payload := pl
               message_id := inp.message_id.getD freshId
               conversation_id := inp.conversation_id
               in_reply_to := inp.in_reply_to
               timestamp := inp.timestamp.getD now
               priority := pr
               token_count := inp.token_count
               summary := inp.summary }
      else none
  | _, _, _ => none

/-- An opaque reference to a registered handler (Python object identity). -/
abbrev Handler := Nat

/-- Outcome of one handler invocation: returned normally, or raised an
`Exception` carrying a description. -/
inductive HRes where
  | ok : HRes
  | err : String → HRes
deriving DecidableEq, Repr

/-- The behaviour of each handler on each message (handlers are opaque
async callables; the bus only observes whether the call raises). -/
abbrev Behavior := Handler → Message → HRes

/-- The subscriber registry `self._subscribers`: `defaultdict(list)` read
via `.get(topic, [])`, so every topic maps to a (possibly empty) ordered
handler list. -/
abbrev Registry := String → List Handler

/-- The empty registry of a fresh `AgentProtocol`. -/
def emptyRegistry : Registry := fun _ => []

/-- `AgentProtocol.subscribe`: appends `h` to the list for `topic`. -/
def subscribeFn (reg : Registry) (topic : String) (h : Handler) : Registry :=
  fun t => if t = topic then reg topic ++ [h] else reg t

/-- `AgentProtocol.unsubscribe`: if `h` occurs in `topic`'s list, removes
its first occurrence (`list.remove`); otherwise a no-op.  `List.erase` is
exactly this guarded first-occurrence removal. -/
def unsubscribeFn (reg : Registry) (topic : String) (h : Handler) : Registry :=
  fun t => if t = topic then (reg topic).erase h else reg t

/-- Observable events of the dispatch engine, in order of occurrence. -/
inductive Event where
  | invoked : Handler → Message → HRes → Event
  | noSubscribers : String → String → Event
deriving DecidableEq, Repr

/-- The `for handler in all_handlers` loop of `AgentProtocol._dispatch`:
each handler is awaited in turn inside `try/except Exception`, so a raise
is caught, logged, and the loop continues with the next handler. -/
def runHandlers (beh : Behavior) (m : Message) : List Handler → List Event
  | [] => []
  | h :: rest => Event.invoked h m (beh h m) :: runHandlers beh m rest

/-- `AgentProtocol._dispatch`: looks up `self._subscribers.get(message.topic, [])`
and `self._subscribers.get("*", [])`, concatenates them, logs a
no-subscriber warning (topic and message id) when the concatenation is
empty, and otherwise invokes each handler in order. -/
def dispatch (beh : Behavior) (reg : Registry) (m : Message) : List Event :=
  let allHandlers := reg m.topic ++ reg "*"
  if allHandlers = [] then
    [Event.noSubscribers m.topic m.message_id]
  else
    runHandlers beh m allHandlers

/-- `AgentProtocol._run_loop` over a queue snapshot: dequeues messages in
FIFO order and dispatches each to completion before taking the next. -/
def runLoop (beh : Behavior) (reg : Registry) : List Message → List Event
  | [] => []
  | m :: rest => dispatch beh reg m ++ runLoop beh reg rest

/-- Forgets handler outcomes in a trace, keeping which handler was invoked
with which message (and which warnings were logged). -/
def stripRes : Event → Event
  | Event.invoked h m _ => Event.invoked h m HRes.ok
  | e => e

/-- The whole bus state: the registry and the intake `asyncio.Queue`
(FIFO), plus ghost history fields — `published` records every message in
publish order, `dispatched` every message in dequeue order, `trace` the
events emitted so far. -/
structure BusState where
  reg : Registry
  queue : List Message
  published : List Message
  dispatched : List Message
  trace : List Event

/-- A fresh `AgentProtocol()`: empty registry, empty queue. -/
def initBus : BusState :=
  { reg := emptyRegistry, queue := [], published := [], dispatched := [], trace := [] }

/-- One cooperative step of the bus.  `subscribe`/`unsubscribe` mutate the
registry; `publish` appends to the intake queue (`queue.put`); `next`
is one iteration of `_run_loop`: dequeue the front message (`queue.get`)
and dispatch it to completion.  `_dispatch` snapshots `all_handlers`
before its loop, so registry changes made while a handler is awaited
affect only later messages; the atomic `next` step models this. -/
inductive Step (beh : Behavior) : BusState → BusState → Prop
  | subscribe (s : BusState) (t : String) (h : Handler) :
      Step beh s { s with reg := subscribeFn s.reg t h }
  | unsubscribe (s : BusState) (t : String) (h : Handler) :
      Step beh s { s with reg := unsubscribeFn s.reg t h }
  | publish (s : BusState) (m : Message) :
      Step beh s { s with queue := s.queue ++ [m], published := s.published ++ [m] }
  | next (s : BusState) (m : Message) (rest : List Message) :
      s.queue = m :: rest →
      Step beh s { s with queue := rest,
                          dispatched := s.dispatched ++ [m],
                          trace := s.trace ++ dispatch beh s.reg m }

/-- Bus states reachable from a fresh protocol instance. -/
def Reachable (beh : Behavior) (s : BusState) : Prop :=
  Relation.ReflTransGen (Step beh) initBus s

/-- The lifecycle fields of `AgentProtocol`: `_is_running`,
`_runner_task`, with ghost counters for tasks created by
`asyncio.create_task` and warnings logged by `run`. -/
structure Lifecycle where
  is_running : Bool
  runner_task : Option Nat
  created : Nat
  warnings : Nat
deriving DecidableEq, Repr

/-- Lifecycle state of a fresh `AgentProtocol()`. -/
def initLifecycle : Lifecycle :=
  { is_running := false, runner_task := none, created := 0, warnings := 0 }

/-- `AgentProtocol.run`: if `not self._is_running and self._runner_task is
None`, creates the runner task (recorded in `created`) and stores its
handle; otherwise logs "already running" and changes nothing else. -/
def runOp (fresh : Nat) (s : Lifecycle) : Lifecycle :=
  if s.is_running = false ∧ s.runner_task = none then
    { s with runner_task := some fresh, created := s.created + 1 }
  else
    { s with warnings := s.warnings + 1 }

/-- Entry of `_run_loop` in the created task: sets `_is_running = True`. -/
def loopEnter (s : Lifecycle) : Lifecycle :=
  { s with is_running := true }

/-- `AgentProtocol.stop`: sets `_is_running = False`, cancels the task if
a handle is held, and clears the handle. -/
def stopOp (s : Lifecycle) : Lifecycle :=
  { s with is_running := false, runner_task := none }

/-- The handler invocations of a trace: which handler was called with
which message, in order, warnings dropped. -/
def invocations (tr : List Event) : List (Handler × Message) :=
  tr.filterMap fun e =>
    match e with
    | Event.invoked h m _ => some (h, m)
    | Event.noSubscribers _ _ => none

/-- A behaviour where every handler returns normally. -/
def behOk : Behavior := fun _ _ => HRes.ok

/-- A behaviour where handler `1` raises and all others return normally. -/
def behErr : Behavior := fun h _ => if h = 1 then HRes.err "boom" else HRes.ok

/-- A concrete message published to topic `"t"`. -/
def msgT : Message :=
  { sender := "tool", topic := "t", payload := [("k", "v")], message_id := "m1",
    conversation_id := none, in_reply_to := none, timestamp := 0,
    priority := mkRat 1 2, token_count := none, summary := none }

/-- A concrete message published to topic `"u"`. -/
def msgU : Message :=
  { sender := "tool", topic := "u", payload := [], message_id := "m2",
    conversation_id := none, in_reply_to := none, timestamp := 1,
    priority := mkRat 1 2, token_count := none, summary := none }

/-- A concrete message published to the wildcard topic itself. -/
def msgStar : Message :=
  { sender := "tool", topic := "*", payload := [], message_id := "m3",
    conversation_id := none, in_reply_to := none, timestamp := 2,
    priority := mkRat 1 2, token_count := none, summary := none }

/-- Handlers `1`, `2` subscribed to `"t"` and handler `3` to `"*"`. -/
def reg1 : Registry :=
  subscribeFn (subscribeFn (subscribeFn emptyRegistry "t" 1) "t" 2) "*" 3

/-- Handler `7` subscribed twice to topic `"t"`. -/
def regC4 : Registry := subscribeFn (subscribeFn emptyRegistry "t" 7) "t" 7

/-- Handler `5` subscribed once to topic `"t"`. -/
def regS : Registry := subscribeFn emptyRegistry "t" 5

/-- Constructor input whose `topic` is the empty string (all optional
fields absent). -/
def emptyTopicInput : MessageInput :=
  { sender := some "a", topic := some "", payload := some [] }

/-- A well-formed constructor input with defaults left absent. -/
def inpC5 : MessageInput :=
  { sender := some "agent", topic := some "tasks.start", payload := some [("task", "x")] }

/-- Bus state after `subscribe("t", 1)` on a fresh bus. -/
def busS1 : BusState := { initBus with reg := subscribeFn initBus.reg "t" 1 }

/-- Bus state after additionally publishing `msgT`. -/
def busS2 : BusState :=
  { busS1 with queue := busS1.queue ++ [msgT], published := busS1.published ++ [msgT] }

/-- Bus state after the loop then dequeues and dispatches `msgT`. -/
def busS3 : BusState :=
  { busS2 with queue := [], dispatched := busS2.dispatched ++ [msgT],
               trace := busS2.trace ++ dispatch behOk busS2.reg msgT }

lemma runHandlers_eq_map (beh : Behavior) (m : Message) (hs : List Handler) :
    runHandlers beh m hs = hs.map fun h => Event.invoked h m (beh h m) := by
  induction hs with
  | nil => rfl
  | cons h rest ih => simp [runHandlers, ih]

lemma invocations_runHandlers (beh : Behavior) (m : Message) (hs : List Handler) :
    invocations (runHandlers beh m hs) = hs.map fun h => (h, m) := by
  induction hs with
  | nil => rfl
  | cons h rest ih =>
      simp [runHandlers, invocations, List.filterMap_cons] at ih ⊢
      exact ih

lemma invocations_dispatch (beh : Behavior) (reg : Registry) (m : Message) :
    invocations (dispatch beh reg m) = (reg m.topic ++ reg "*").map fun h => (h, m) := by
  unfold dispatch
  by_cases hne : reg m.topic ++ reg "*" = []
  · simp [hne, invocations]
  · simp [hne, invocations_runHandlers]

/-- C1: dispatching a message to topic `T` invokes exactly the handlers
registered for `T` (in subscription order) followed by the handlers
registered for `"*"` (in subscription order), each once per registration,
each with the message itself. -/
theorem C1_fanout_order (beh : Behavior) (reg : Registry) (m : Message) :
    invocations (dispatch beh reg m) = (reg m.topic ++ reg "*").map fun h => (h, m) :=
  invocations_dispatch beh reg m

lemma stripRes_invoked (beh : Behavior) (m : Message) :
    (stripRes ∘ fun h => Event.invoked h m (beh h m))
      = fun h => Event.invoked h m HRes.ok := by
  funext h
  rfl

lemma stripRes_dispatch (beh beh' : Behavior) (reg : Registry) (m : Message) :
    (dispatch beh reg m).map stripRes = (dispatch beh' reg m).map stripRes := by
  unfold dispatch
  by_cases hne : reg m.topic ++ reg "*" = []
  · simp [hne]
  · simp [hne, runHandlers_eq_map, stripRes_invoked]

lemma mem_runLoop_of_mem (beh : Behavior) (reg : Registry) (ms : List Message)
    (m : Message) (h : Handler) (hm : m ∈ ms) (hh : h ∈ reg m.topic ++ reg "*") :
    Event.invoked h m (beh h m) ∈ runLoop beh reg ms := by
  induction ms with
  | nil => cases hm
  | cons m0 rest ih =>
      rcases List.mem_cons.mp hm with hm0 | hmr
      · subst hm0
        have hne : reg m.topic ++ reg "*" ≠ [] := by
          intro hcon
          rw [hcon] at hh
          cases hh
        apply List.mem_append_left
        unfold dispatch
        rw [if_neg hne, runHandlers_eq_map]
        exact List.mem_map.mpr ⟨h, hh, rfl⟩
      · exact List.mem_append_right _ (ih hmr)

/-- C2: a handler raising is caught and logged and changes nothing about
which handlers run: the invocation trace (results forgotten) is
independent of handler behaviour across the whole queue, and every
registered handler of every queued message is invoked, its outcome
(normal return or caught error) recorded. -/
theorem C2_error_containment (beh beh' : Behavior) (reg : Registry) (ms : List Message) :
    ((runLoop beh reg ms).map stripRes = (runLoop beh' reg ms).map stripRes) ∧
    (∀ m h, m ∈ ms → h ∈ reg m.topic ++ reg "*" →
      Event.invoked h m (beh h m) ∈ runLoop beh reg ms) := by
  constructor
  · induction ms with
    | nil => rfl
    | cons m0 rest ih =>
        simp only [runLoop, List.map_append, ih, stripRes_dispatch beh beh' reg m0]
  · intro m h hm hh
    exact mem_runLoop_of_mem beh reg ms m h hm hh

/-- C2 witness: with handler `1` raising on every message, the stripped
trace matches an error-free run's, and handler `2` is still invoked. -/
theorem C2_error_containment_witness :
    ((runLoop behErr reg1 [msgT, msgU]).map stripRes
        = (runLoop behOk reg1 [msgT, msgU]).map stripRes) ∧
    Event.invoked 2 msgT (behErr 2 msgT) ∈ runLoop behErr reg1 [msgT, msgU] :=
  ⟨(C2_error_containment behErr behOk reg1 [msgT, msgU]).1,
   (C2_error_containment behErr behOk reg1 [msgT, msgU]).2 msgT 2 (by decide) (by decide)⟩

/-- C3: a message whose topic has no exact and no wildcard handlers
produces exactly the no-subscriber warning (naming topic and message id),
no invocation, and the loop proceeds to the rest of the queue. -/
theorem C3_no_subscriber_warning (beh : Behavior) (reg : Registry) (m : Message)
    (rest : List Message) (h1 : reg m.topic = []) (h2 : reg "*" = []) :
    runLoop beh reg (m :: rest)
      = Event.noSubscribers m.topic m.message_id :: runLoop beh reg rest := by
  simp [runLoop, dispatch, h1, h2]

/-- C3 witness: an empty registry drops `msgT` with a warning and still
dispatches nothing for the next message. -/
theorem C3_no_subscriber_warning_witness :
    runLoop behOk emptyRegistry [msgT, msgU]
      = Event.noSubscribers msgT.topic msgT.message_id :: runLoop behOk emptyRegistry [msgU] :=
  C3_no_subscriber_warning behOk emptyRegistry msgT [msgU] (by decide) (by decide)

/-- C4 counterexample: handler `7` registered twice for `"t"`; after
`unsubscribe("t", 7)` (which removes only the first occurrence), a
message published to `"t"` still invokes handler `7` — refuting the
claim's "regardless of how many times h had previously been registered". -/
theorem C4_counterexample :
    Event.invoked 7 msgT HRes.ok ∈ dispatch behOk (unsubscribeFn regC4 "t" 7) msgT := by
  decide

/-- C4 (amended): `unsubscribe(T, h)` removes only the first occurrence of
`h` under `T`; non-delivery is guaranteed when `h` was registered at most
once under `T` and is not registered under the wildcard topic: then no
later dispatch of a message published to `T` invokes `h`. -/
theorem C4_amended_unsubscribe (beh : Behavior) (reg : Registry) (t : String)
    (h : Handler) (m : Message) (r : HRes) (ht : m.topic = t)
    (h1 : (reg t).count h ≤ 1) (hw : h ∉ reg "*") :
    Event.invoked h m r ∉ dispatch beh (unsubscribeFn reg t h) m := by
  have hsub : (unsubscribeFn reg t h) t = (reg t).erase h := by
    unfold unsubscribeFn
    rw [if_pos rfl]
  have hmain : h ∉ (unsubscribeFn reg t h) t := by
    rw [hsub]
    intro hmem
    have hpos := List.count_pos_iff.mpr hmem
    rw [List.count_erase_self] at hpos
    omega
  have hwild : h ∉ (unsubscribeFn reg t h) "*" := by
    unfold unsubscribeFn
    by_cases hts : ("*" : String) = t
    · rw [if_pos hts, ← hts]
      intro hmem
      exact hw (List.erase_subset _ _ hmem)
    · rw [if_neg hts]
      exact hw
  intro hmem
  unfold dispatch at hmem
  by_cases hne : (unsubscribeFn reg t h) m.topic ++ (unsubscribeFn reg t h) "*" = []
  · rw [if_pos hne] at hmem
    simp at hmem
  · rw [if_neg hne, runHandlers_eq_map] at hmem
    rcases List.mem_map.mp hmem with ⟨h', hh', heq⟩
    cases heq
    rw [ht] at hh'
    rcases List.mem_append.mp hh' with hl | hr
    · exact hmain hl
    · exact hwild hr

/-- C4 witness: handler `5` registered once for `"t"`; after
`unsubscribe("t", 5)` a message to `"t"` does not invoke it. -/
theorem C4_amended_unsubscribe_witness :
    Event.invoked 5 msgT HRes.ok ∉ dispatch behOk (unsubscribeFn regS "t" 5) msgT :=
  C4_amended_unsubscribe behOk regS "t" 5 msgT HRes.ok (by decide) (by decide) (by decide)

/-- C10: when a message's topic is the wildcard string itself, the exact
and wildcard lookups both return the `"*"` list, so every handler
registered under `"*"` is invoked twice per registration. -/
theorem C10_wildcard_topic_double (beh : Behavior) (reg : Registry) (m : Message)
    (h : Handler) (ht : m.topic = "*") :
    (dispatch beh reg m).count (Event.invoked h m (beh h m)) = 2 * (reg "*").count h := by
  unfold dispatch
  rw [ht]
  by_cases hne : reg "*" ++ reg "*" = []
  · have h0 : reg "*" = [] := (List.append_eq_nil.mp hne).1
    rw [if_pos hne]
    simp [h0]
  · rw [if_neg hne, runHandlers_eq_map]
    have hinj : Function.Injective fun h' : Handler => Event.invoked h' m (beh h' m) := by
      intro a b hab
      injection hab
    rw [List.count_map_of_injective _ _ hinj, List.count_append]
    omega

/-- C10 witness: handler `3` registered once under `"*"` is invoked twice
for a message published to topic `"*"`. -/
theorem C10_wildcard_topic_double_witness :
    (dispatch behOk reg1 msgStar).count (Event.invoked 3 msgStar (behOk 3 msgStar))
      = 2 * (reg1 "*").count 3 :=
  C10_wildcard_topic_double behOk reg1 msgStar 3 (by decide)

/-- C5 counterexample: the pydantic model declares `topic: str` with no
non-emptiness constraint, so construction with `topic=""` succeeds —
refuting "construction fails when topic is the empty string". -/
theorem C5_counterexample : (mkMessage "uuid-0" 0 emptyTopicInput).isSome = true := by
  decide

/-- C5 (amended): construction fails exactly when a required field
(`sender`, `topic`, or `payload`) is missing or the (given or defaulted)
priority lies outside `[0, 1]`; the empty-string topic is accepted; on
success `message_id`, `timestamp` and `priority` (`0.5`) are filled with
their defaults when absent. -/
theorem C5_amended_construction (freshId : String) (now : ℚ) (inp : MessageInput) :
    ((mkMessage freshId now inp).isSome ↔
      (inp.sender.isSome ∧ inp.topic.isSome ∧ inp.payload.isSome ∧
        0 ≤ inp.priority.getD (mkRat 1 2) ∧ inp.priority.getD (mkRat 1 2) ≤ 1)) ∧
    (∀ msg : Message, mkMessage freshId now inp = some msg →
      msg.message_id = inp.message_id.getD freshId ∧
      msg.timestamp = inp.timestamp.getD now ∧
      msg.priority = inp.priority.getD (mkRat 1 2)) := by
  unfold mkMessage
  rcases hs : inp.sender with _ | s <;>
    rcases htp : inp.topic with _ | t <;>
      rcases hp : inp.payload with _ | pl <;>
        simp

/-- C5 witness: a well-formed input with optional fields absent yields a
message whose id, timestamp and priority are the defaults. -/
theorem C5_amended_construction_witness :
    (mkMessage "u1" 3 inpC5).isSome ∧
    ∀ msg : Message, mkMessage "u1" 3 inpC5 = some msg →
      msg.message_id = "u1" ∧ msg.timestamp = 3 ∧ msg.priority = mkRat 1 2 :=
  ⟨(C5_amended_construction "u1" 3 inpC5).1.mpr (by decide),
   fun msg hmsg => (C5_amended_construction "u1" 3 inpC5).2 msg hmsg⟩

lemma dispatch_invoked_msg (beh : Behavior) (reg : Registry) (m m' : Message)
    (h : Handler) (r : HRes) (hmem : Event.invoked h m' r ∈ dispatch beh reg m) :
    m' = m := by
  unfold dispatch at hmem
  by_cases hne : reg m.topic ++ reg "*" = []
  · rw [if_pos hne] at hmem
    simp at hmem
  · rw [if_neg hne, runHandlers_eq_map] at hmem
    rcases List.mem_map.mp hmem with ⟨h', hh', heq⟩
    cases heq
    rfl

lemma reachable_inv (beh : Behavior) (s : BusState) (hr : Reachable beh s) :
    s.published = s.dispatched ++ s.queue ∧
    ∀ (h : Handler) (m : Message) (r : HRes),
      Event.invoked h m r ∈ s.trace → m ∈ s.published := by
  induction hr with
  | refl =>
      constructor
      · rfl
      · intro h m r hmem
        cases hmem
  | tail _ hstep ih =>
      rcases ih with ⟨ihq, iht⟩
      cases hstep with
      | subscribe t h => exact ⟨ihq, iht⟩
      | unsubscribe t h => exact ⟨ihq, iht⟩
      | publish m =>
          constructor
          · simp only [ihq, List.append_assoc]
          · intro h m' r hmem
            exact List.mem_append_left _ (iht h m' r hmem)
      | next m rest hq =>
          constructor
          · simp only [ihq, hq, List.append_assoc, List.singleton_append]
          · intro h m' r hmem
            rcases List.mem_append.mp hmem with hold | hnew
            · exact iht h m' r hold
            · have := dispatch_invoked_msg beh _ m m' h r hnew
              subst this
              rw [ihq, hq]
              exact List.mem_append_right _ (List.mem_cons_self _ _)

/-- C6: messages are dispatched in exactly the global order they were
published: in every reachable bus state the publish history equals the
dispatch history followed by the still-queued messages, and each `next`
step dispatches the queue front to completion before the next dequeue. -/
theorem C6_fifo_order (beh : Behavior) (s : BusState) (hr : Reachable beh s) :
    s.published = s.dispatched ++ s.queue :=
  (reachable_inv beh s hr).1

lemma reach1 : Reachable behOk busS1 :=
  Relation.ReflTransGen.single (Step.subscribe initBus "t" 1)

lemma reach2 : Reachable behOk busS2 :=
  Relation.ReflTransGen.tail reach1 (Step.publish busS1 msgT)

lemma reach3 : Reachable behOk busS3 :=
  Relation.ReflTransGen.tail reach2 (Step.next busS2 msgT [] rfl)

/-- C6 witness: after subscribing, publishing `msgT` and one loop
iteration, the histories agree and `msgT` has been dispatched. -/
theorem C6_fifo_order_witness :
    busS3.published = busS3.dispatched ++ busS3.queue ∧ busS3.dispatched = [msgT] :=
  ⟨C6_fifo_order behOk busS3 reach3, by decide⟩

/-- C9: the bus never mutates a message: every handler invocation anywhere
in a dispatch receives exactly the dispatched message, and in every
reachable bus state every invocation in the trace carries, field for
field, a message as the publisher constructed it. -/
theorem C9_no_mutation (beh : Behavior) :
    (∀ (reg : Registry) (m m' : Message) (h : Handler) (r : HRes),
      Event.invoked h m' r ∈ dispatch beh reg m → m' = m) ∧
    (∀ s : BusState, Reachable beh s →
      ∀ (h : Handler) (m : Message) (r : HRes),
        Event.invoked h m r ∈ s.trace → m ∈ s.published) :=
  ⟨fun reg m m' h r hmem => dispatch_invoked_msg beh reg m m' h r hmem,
   fun s hr => (reachable_inv beh s hr).2⟩

/-- C9 witness: in the concrete three-step run, handler `1`'s invocation
in the trace carries exactly the published `msgT`. -/
theorem C9_no_mutation_witness :
    msgT = msgT ∧ msgT ∈ busS3.published :=
  ⟨(C9_no_mutation behOk).1 busS2.reg msgT msgT 1 HRes.ok (by decide),
   (C9_no_mutation behOk).2 busS3 reach3 1 msgT HRes.ok (by decide)⟩

/-- C7: `run()` while a runner task exists or the loop flag is set only
logs a warning — no second task is created and no other field changes —
while after `stop()` (flag cleared, handle cleared and task cancelled) a
fresh `run()` stores a new task handle and creates exactly one task. -/
theorem C7_single_runner (s : Lifecycle) (fresh : Nat)
    (h : s.is_running = true ∨ s.runner_task ≠ none) :
    runOp fresh s = { s with warnings := s.warnings + 1 } ∧
    (runOp fresh (stopOp s)).runner_task = some fresh ∧
    (runOp fresh (stopOp s)).created = s.created + 1 := by
  have hguard : ¬(s.is_running = false ∧ s.runner_task = none) := by
    rcases h with h1 | h2
    · intro hc
      rw [h1] at hc
      cases hc.1
    · intro hc
      exact h2 hc.2
  refine ⟨?_, ?_, ?_⟩
  · unfold runOp
    rw [if_neg hguard]
  · unfold runOp stopOp
    rw [if_pos ⟨rfl, rfl⟩]
  · unfold runOp stopOp
    rw [if_pos ⟨rfl, rfl⟩]

/-- C7 witness: on a started-and-entered loop, a second `run()` only logs;
after `stop()` a new task is created and its handle stored. -/
theorem C7_single_runner_witness :
    runOp 1 (loopEnter (runOp 0 initLifecycle))
        = { loopEnter (runOp 0 initLifecycle) with
            warnings := (loopEnter (runOp 0 initLifecycle)).warnings + 1 } ∧
    (runOp 1 (stopOp (loopEnter (runOp 0 initLifecycle)))).runner_task = some 1 ∧
    (runOp 1 (stopOp (loopEnter (runOp 0 initLifecycle)))).created
        = (loopEnter (runOp 0 initLifecycle)).created + 1 :=
  C7_single_runner (loopEnter (runOp 0 initLifecycle)) 1 (Or.inl (by decide))
